import Mathlib

/-!
Verification of the "Clipping" creator-payout Discord bot.

This file shallowly embeds the persistent data model (src/database.py), the
store operations of the service layer (src/services/database_service.py,
src/services/campaign_service.py, src/commands/user_commands.py) and the
earnings-accrual tick (the per-submission loop shared by
src/services/view_tracker.py `ViewTracker.track_views` and
src/bot.py `CLBot.track_views`, whose SQL statements give the exact store
semantics of the mutations).  Money columns are SQL REAL; they are modelled
as rationals, view counts as integers (Python ints).  Theorems below settle
the frozen claims about this program.
-/

namespace Clipping

/-- Status values of a social profile (src/models.py `Status`). -/
inductive ProfileStatus where
  | pending
  | approved
  | rejected
  | banned
deriving Repr, DecidableEq

/-- Status values of a submission: `pending`, `approved`, `rejected`. -/
inductive SubmissionStatus where
  | pending
  | approved
  | rejected
deriving Repr, DecidableEq

/-- Status values of a campaign: `live` or `ended`. -/
inductive CampaignStatus where
  | live
  | ended
deriving Repr, DecidableEq

/-- A row of the `users` table (src/database.py lines 40-48).  The money
columns default to 0 on insert. -/
structure User where
  discord_id : String
  username : String
  usdt_wallet : Option String := none
  total_earnings : ℚ := 0
  paid_earnings : ℚ := 0
  pending_earnings : ℚ := 0
deriving Repr, DecidableEq

/-- A row of the `social_profiles` table (src/database.py lines 52-69). -/
structure SocialProfile where
  id : Nat
  discord_id : String
  platform : String
  profile_url : String
  normalized_id : String
  status : ProfileStatus := ProfileStatus.pending
  rejection_reason : Option String := none
  verified_by : Option String := none
deriving Repr, DecidableEq

/-- A row of the `banned_profiles` table (src/database.py lines 72-83). -/
structure BannedProfile where
  platform : String
  profile_url : String
  normalized_id : String
  reason : String
  banned_by : String
deriving Repr, DecidableEq

/-- A row of the `campaigns` table (src/database.py lines 86-104). -/
structure Campaign where
  id : Nat
  name : String
  platform : String
  total_budget : ℚ
  rate_per_100k : ℚ
  rate_per_1m : ℚ
  max_earn_per_creator : ℚ
  max_earn_per_post : ℚ
  status : CampaignStatus := CampaignStatus.live
  remaining_budget : ℚ
deriving Repr, DecidableEq

/-- A row of the `submissions` table (src/database.py lines 107-131). -/
structure Submission where
  id : Nat
  discord_id : String
  campaign_id : Nat
  social_profile_id : Nat
  video_url : String
  normalized_video_id : String
  platform : String
  starting_views : Int
  current_views : Int
  earnings : ℚ := 0
  status : SubmissionStatus := SubmissionStatus.pending
  tracking : Bool := false
  approved_by : Option String := none
deriving Repr, DecidableEq

/-- A row of the `payouts` table (src/database.py lines 134-148). -/
structure Payout where
  discord_id : String
  campaign_id : Nat
  amount : ℚ
  status : String
  usdt_tx_hash : String
  paid_by : String
deriving Repr, DecidableEq

/-- A row of the `activity_logs` table (src/database.py lines 151-160). -/
structure ActivityLog where
  action_type : String
  performed_by : String
  target_user : Option String
deriving Repr, DecidableEq

/-- A row of the `view_history` table (src/database.py lines 163-171). -/
structure ViewRecord where
  submission_id : Nat
  views : Int
deriving Repr, DecidableEq

/-- The persistent store: the seven entity tables of src/database.py. -/
structure DBState where
  users : List User := []
  social_profiles : List SocialProfile := []
  banned_profiles : List BannedProfile := []
  campaigns : List Campaign := []
  submissions : List Submission := []
  payouts : List Payout := []
  activity_logs : List ActivityLog := []
  view_history : List ViewRecord := []
deriving Repr, DecidableEq

/-- `SELECT * FROM t WHERE key = k LIMIT 1` on a table held as a list. -/
def findByKey {α κ : Type} [DecidableEq κ] (key : α → κ) (k : κ) (l : List α) : Option α :=
  l.find? (fun x => key x = k)

/-- `UPDATE t SET ... WHERE key = k` on a table held as a list: applies `f`
to every row whose key is `k`. -/
def updateByKey {α κ : Type} [DecidableEq κ] (key : α → κ) (k : κ) (f : α → α) (l : List α) :
    List α :=
  l.map (fun x => if key x = k then f x else x)

theorem findByKey_updateByKey_self {α κ : Type} [DecidableEq κ] (key : α → κ) (k : κ)
    (f : α → α) (hf : ∀ x, key (f x) = key x) (l : List α) :
    findByKey key k (updateByKey key k f l) = (findByKey key k l).map f := by
  induction l with
  | nil => rfl
  | cons a l ih =>
    by_cases h : key a = k
    · simp [findByKey, updateByKey, List.find?, h, hf a]
    · simpa [findByKey, updateByKey, List.find?, h] using ih

theorem findByKey_updateByKey_ne {α κ : Type} [DecidableEq κ] (key : α → κ) (k k' : κ)
    (hk : k ≠ k') (f : α → α) (hf : ∀ x, key (f x) = key x) (l : List α) :
    findByKey key k' (updateByKey key k f l) = findByKey key k' l := by
  induction l with
  | nil => rfl
  | cons a l ih =>
    simp only [updateByKey, List.map_cons, findByKey] at ih ⊢
    by_cases h : key a = k
    · rw [if_pos h]
      rw [List.find?_cons_of_neg _
        (by simp only [decide_eq_true_eq]; exact fun hc => hk (((hf a).trans h).symm.trans hc))]
      rw [List.find?_cons_of_neg _
        (by simp only [decide_eq_true_eq]; exact fun hc => hk (h.symm.trans hc))]
      exact ih
    · rw [if_neg h]
      by_cases h2 : key a = k'
      · rw [List.find?_cons_of_pos _ (by simp [h2]), List.find?_cons_of_pos _ (by simp [h2])]
      · rw [List.find?_cons_of_neg _ (by simp [h2]), List.find?_cons_of_neg _ (by simp [h2])]
        exact ih

/-- `calculate_earnings` from src/services/view_tracker.py lines 147-153
(identical in src/bot.py lines 436-441): two competing rate tiers, clamped
by the per-post headroom passed in as `max_earn`. -/
def calculate_earnings (views : Int) (rate_100k rate_1m max_earn : ℚ) : ℚ :=
  let earnings_per_100k : ℚ := ((views : ℚ) / 100000) * rate_100k
  let earnings_per_1m : ℚ := ((views : ℚ) / 1000000) * rate_1m
  let earnings : ℚ := max earnings_per_100k earnings_per_1m
  min earnings max_earn

/-- One row of the tick's working-set query
(`SELECT s.*, c.rate_per_100k, c.rate_per_1m, c.max_earn_per_post,
c.remaining_budget ...`, src/bot.py lines 331-342): the submission columns
plus the joined campaign columns, all captured once at the start of the
tick. -/
structure TrackedRow where
  sub : Submission
  rate_per_100k : ℚ
  rate_per_1m : ℚ
  max_earn_per_post : ℚ
  remaining_budget : ℚ
deriving Repr, DecidableEq

/-- `UPDATE submissions SET tracking = ? WHERE id = ?`
(src/services/database_service.py `update_submission_tracking`). -/
def update_submission_tracking (s : DBState) (sid : Nat) (b : Bool) : DBState :=
  { s with submissions :=
      updateByKey Submission.id sid (fun x => { x with tracking := b }) s.submissions }

/-- `UPDATE campaigns SET remaining_budget = 0 WHERE id = ?`
(src/bot.py lines 377-380, the partial-budget-depletion branch). -/
def set_campaign_budget_zero (s : DBState) (cid : Nat) : DBState :=
  { s with campaigns :=
      updateByKey Campaign.id cid (fun c => { c with remaining_budget := 0 }) s.campaigns }

/-- The submission update of the grant path (src/bot.py lines 388-397):
`SET current_views = ?, earnings = earnings + ?, tracking = CASE WHEN
earnings + ? >= ? THEN FALSE ELSE tracking END` with the campaign's
`max_earn_per_post` bound as the threshold. -/
def apply_submission_earnings (s : DBState) (sid : Nat) (cv : Int) (e cap : ℚ) : DBState :=
  { s with submissions :=
      (updateByKey Submission.id sid
        (fun x =>
          { x with
            current_views := cv
            earnings := x.earnings + e
            tracking := if cap ≤ x.earnings + e then false else x.tracking })
        s.submissions) }

/-- `UPDATE campaigns SET remaining_budget = remaining_budget - ? WHERE id = ?`
(src/bot.py lines 399-402). -/
def decrement_campaign_budget (s : DBState) (cid : Nat) (e : ℚ) : DBState :=
  { s with campaigns :=
      (updateByKey Campaign.id cid
        (fun c => { c with remaining_budget := c.remaining_budget - e }) s.campaigns) }

/-- `UPDATE users SET total_earnings = total_earnings + ?, pending_earnings =
pending_earnings + ? WHERE discord_id = ?` (src/bot.py lines 404-409). -/
def add_user_earnings (s : DBState) (uid : String) (e : ℚ) : DBState :=
  { s with users :=
      (updateByKey User.discord_id uid
        (fun u =>
          { u with
            total_earnings := u.total_earnings + e
            pending_earnings := u.pending_earnings + e })
        s.users) }

/-- `INSERT INTO view_history (submission_id, views) VALUES (?, ?)`
(src/bot.py lines 412-415). -/
def add_view_history (s : DBState) (sid : Nat) (cv : Int) : DBState :=
  { s with view_history := s.view_history ++ [{ submission_id := sid, views := cv }] }

/-- `INSERT INTO activity_logs ...` (src/services/database_service.py
`log_action`; the structured `details` dict is opaque and omitted). -/
def log_action (s : DBState) (action_type performed_by : String)
    (target_user : Option String) : DBState :=
  { s with activity_logs :=
      s.activity_logs ++
        [{ action_type := action_type, performed_by := performed_by,
           target_user := target_user }] }

/-- The milestone log of src/bot.py lines 418-428 / view_tracker.py lines
105-115: fires when `current_views >= 100000 or current_views % 10000 == 0`. -/
def log_milestone (s : DBState) (uid : String) (cv : Int) : DBState :=
  if 100000 ≤ cv ∨ cv % 10000 = 0 then
    log_action s "VIEW_MILESTONE" "system" (some uid)
  else s

/-- The per-submission body of the accrual tick, processing one working-set
row against the current store.  This is the loop body shared by
src/services/view_tracker.py lines 39-115 and src/bot.py lines 346-428:
the stop-condition, fetch, view-increase, earnings, budget checks all read
the row captured at the start of the tick, while the mutations are applied
to the live store. -/
def processSubmission (fetch : String → String → Option Int) (s : DBState)
    (row : TrackedRow) : DBState :=
  if row.remaining_budget ≤ 0 then
    update_submission_tracking s row.sub.id false
  else
    match fetch row.sub.video_url row.sub.platform with
    | none => s
    | some current_views =>
      let view_increase := current_views - row.sub.current_views
      if view_increase ≤ 0 then s
      else
        let earnings := calculate_earnings view_increase row.rate_per_100k row.rate_per_1m
          (row.max_earn_per_post - row.sub.earnings)
        if earnings ≤ 0 then s
        else if row.remaining_budget < earnings then
          update_submission_tracking (set_campaign_budget_zero s row.sub.campaign_id)
            row.sub.id false
        else
          log_milestone
            (add_view_history
              (add_user_earnings
                (decrement_campaign_budget
                  (apply_submission_earnings s row.sub.id current_views earnings
                    row.max_earn_per_post)
                  row.sub.campaign_id earnings)
                row.sub.discord_id earnings)
              row.sub.id current_views)
            row.sub.discord_id current_views

/-- The working-set query of the tick (src/bot.py lines 331-342): all
submissions with `tracking = 1 AND s.status = 'approved' AND
c.status = 'live' AND sp.status != 'banned'`, joined with the campaign
columns the loop reads. -/
def getTrackingSubmissions (s : DBState) : List TrackedRow :=
  s.submissions.filterMap (fun sub =>
    match findByKey Campaign.id sub.campaign_id s.campaigns,
        findByKey SocialProfile.id sub.social_profile_id s.social_profiles with
    | some c, some p =>
        if sub.tracking = true ∧ sub.status = SubmissionStatus.approved ∧
            c.status = CampaignStatus.live ∧ p.status ≠ ProfileStatus.banned then
          some { sub := sub, rate_per_100k := c.rate_per_100k, rate_per_1m := c.rate_per_1m,
                 max_earn_per_post := c.max_earn_per_post,
                 remaining_budget := c.remaining_budget }
        else none
    | _, _ => none)

/-- One tick of the Earnings Accrual Engine: capture the working set once,
then run the per-submission body over it in order (src/bot.py lines
326-430, src/services/view_tracker.py lines 31-115). -/
def track_views (fetch : String → String → Option Int) (s : DBState) : DBState :=
  (getTrackingSubmissions s).foldl (processSubmission fetch) s

/-- `SELECT * FROM banned_profiles WHERE normalized_id = ?`
(src/services/database_service.py `get_banned_profile`). -/
def get_banned_profile (s : DBState) (nid : String) : Option BannedProfile :=
  findByKey BannedProfile.normalized_id nid s.banned_profiles

/-- `SELECT * FROM social_profiles WHERE normalized_id = ?`
(src/services/database_service.py `get_profile_by_normalized_id`). -/
def get_profile_by_normalized_id (s : DBState) (nid : String) : Option SocialProfile :=
  findByKey SocialProfile.normalized_id nid s.social_profiles

/-- `create_user_if_not_exists` (src/services/database_service.py lines
32-45): inserts a user row with the schema's zero money defaults when no
row with that discord id exists. -/
def create_user_if_not_exists (s : DBState) (uid uname : String) : DBState :=
  match findByKey User.discord_id uid s.users with
  | some _ => s
  | none => { s with users := s.users ++ [{ discord_id := uid, username := uname }] }

/-- `update_user_wallet` (src/services/database_service.py lines 65-70). -/
def update_user_wallet (s : DBState) (uid w : String) : DBState :=
  { s with users :=
      (updateByKey User.discord_id uid (fun u => { u with usdt_wallet := some w }) s.users) }

/-- Fresh AUTOINCREMENT id for `social_profiles`. -/
def nextProfileId (s : DBState) : Nat :=
  s.social_profiles.foldl (fun m p => max m p.id) 0 + 1

/-- Fresh AUTOINCREMENT id for `submissions`. -/
def nextSubmissionId (s : DBState) : Nat :=
  s.submissions.foldl (fun m x => max m x.id) 0 + 1

/-- Fresh AUTOINCREMENT id for `campaigns`. -/
def nextCampaignId (s : DBState) : Nat :=
  s.campaigns.foldl (fun m c => max m c.id) 0 + 1

/-- `create_social_profile` (src/services/database_service.py lines
132-140): inserts a profile with status `'pending'` and returns the new
row id. -/
def create_social_profile (s : DBState) (uid platform url nid : String) : DBState × Nat :=
  let pid := nextProfileId s
  ({ s with social_profiles :=
      s.social_profiles ++
        [{ id := pid, discord_id := uid, platform := platform, profile_url := url,
           normalized_id := nid, status := ProfileStatus.pending }] },
   pid)

/-- The failure outcomes of the register command
(src/commands/user_commands.py lines 32-104). -/
inductive RegisterError where
  | invalidUrl
  | invalidProfile
  | alreadyBanned (reason : String)
  | alreadyRegistered
deriving Repr, DecidableEq

/-- The `/register` command (src/commands/user_commands.py lines 32-104):
validate the URL, normalize it, refuse a banned normalized id (surfacing
the stored ban reason), refuse a normalized id already registered to any
profile, otherwise create the user row if absent and insert a pending
profile.  URL validation and normalization (src/utils/validators.py,
src/utils/normalizers.py) are injected as parameters. -/
def register (validate : String → String → Bool)
    (normalize : String → String → Option String) (s : DBState)
    (uid uname platform url : String) : Except RegisterError (DBState × Nat) :=
  if validate platform url = false then Except.error RegisterError.invalidUrl
  else
    match normalize platform url with
    | none => Except.error RegisterError.invalidProfile
    | some nid =>
      match get_banned_profile s nid with
      | some b => Except.error (RegisterError.alreadyBanned b.reason)
      | none =>
        match get_profile_by_normalized_id s nid with
        | some _ => Except.error RegisterError.alreadyRegistered
        | none =>
          let s1 := create_user_if_not_exists s uid uname
          Except.ok (create_social_profile s1 uid platform url nid)

/-- `approve_profile` (src/services/database_service.py lines 239-246):
`UPDATE social_profiles SET status = 'approved', verified_at = ?,
verified_by = ? WHERE id = ?` — unconditional on the current status. -/
def approve_profile (s : DBState) (pid : Nat) (staff : String) : DBState :=
  { s with social_profiles :=
      (updateByKey SocialProfile.id pid
        (fun p => { p with status := ProfileStatus.approved, verified_by := some staff })
        s.social_profiles) }

/-- `reject_profile` (src/services/database_service.py lines 248-253):
unconditional `UPDATE ... SET status = 'rejected', rejection_reason = ?`. -/
def reject_profile (s : DBState) (pid : Nat) (reason : String) : DBState :=
  { s with social_profiles :=
      (updateByKey SocialProfile.id pid
        (fun p => { p with status := ProfileStatus.rejected, rejection_reason := some reason })
        s.social_profiles) }

/-- The three store statements of `ban_profile`
(src/services/database_service.py lines 311-335): insert the ban row,
force every profile with that normalized id to `'banned'`, and stop
tracking on every submission of those profiles. -/
def ban_profile_writes (s : DBState) (platform url nid reason staff : String) : DBState :=
  let s1 : DBState :=
    { s with banned_profiles :=
        s.banned_profiles ++
          [{ platform := platform, profile_url := url, normalized_id := nid,
             reason := reason, banned_by := staff }] }
  let s2 : DBState :=
    { s1 with social_profiles :=
        (updateByKey SocialProfile.normalized_id nid
          (fun p => { p with status := ProfileStatus.banned }) s1.social_profiles) }
  { s2 with submissions :=
      (s2.submissions.map (fun sub =>
        if ∃ p ∈ s2.social_profiles, p.normalized_id = nid ∧ p.id = sub.social_profile_id then
          { sub with tracking := false }
        else sub)) }

/-- `ban_profile` (src/services/database_service.py lines 311-335): the
`banned_profiles` table has `UNIQUE(normalized_id)` (src/database.py line
81), so when the normalized id already has a ban row the unconditional
INSERT raises `IntegrityError` on the first statement and nothing
changes; otherwise the three statements run. -/
def ban_profile (s : DBState) (platform url nid reason staff : String) : DBState :=
  match get_banned_profile s nid with
  | some _ => s
  | none => ban_profile_writes s platform url nid reason staff

/-- `remove_ban` (src/services/database_service.py lines 337-349): delete
the ban row and set the matching profiles to `'rejected'` (explicitly not
back to approved). -/
def remove_ban (s : DBState) (nid : String) : DBState :=
  let s1 : DBState :=
    { s with banned_profiles :=
        s.banned_profiles.filter (fun b => decide (b.normalized_id ≠ nid)) }
  { s1 with social_profiles :=
      (updateByKey SocialProfile.normalized_id nid
        (fun p => { p with status := ProfileStatus.rejected }) s1.social_profiles) }

/-- `create_submission` (src/services/database_service.py lines 405-420):
inserts with `current_views = starting_views` and the schema defaults
`status = 'pending'`, `tracking = FALSE`. -/
def create_submission (s : DBState) (uid : String) (cid spid : Nat)
    (video_url nvid platform : String) (starting_views : Int) : DBState × Nat :=
  let sid := nextSubmissionId s
  ({ s with submissions :=
      s.submissions ++
        [{ id := sid, discord_id := uid, campaign_id := cid, social_profile_id := spid,
           video_url := video_url, normalized_video_id := nvid, platform := platform,
           starting_views := starting_views, current_views := starting_views }] },
   sid)

/-- `approve_submission` (src/services/database_service.py lines 503-513):
`UPDATE submissions SET status = 'approved', tracking = TRUE, approved_at =
?, approved_by = ? WHERE id = ?` — unconditional on the current status. -/
def approve_submission (s : DBState) (sid : Nat) (staff : String) : DBState :=
  { s with submissions :=
      (updateByKey Submission.id sid
        (fun x =>
          { x with status := SubmissionStatus.approved, tracking := true,
                   approved_by := some staff })
        s.submissions) }

/-- `reject_submission` (src/services/database_service.py lines 515-520):
unconditional `UPDATE submissions SET status = 'rejected' WHERE id = ?`. -/
def reject_submission (s : DBState) (sid : Nat) : DBState :=
  { s with submissions :=
      (updateByKey Submission.id sid
        (fun x => { x with status := SubmissionStatus.rejected }) s.submissions) }

/-- `create_campaign` (src/services/campaign_service.py lines 11-34):
refuses a duplicate name, else inserts with `remaining_budget =
total_budget` and the schema default `status = 'live'`. -/
def create_campaign (s : DBState) (name platform : String)
    (total_budget rate_per_100k rate_per_1m max_earn_per_creator max_earn_per_post : ℚ) :
    DBState :=
  match findByKey Campaign.name name s.campaigns with
  | some _ => s
  | none =>
    { s with campaigns :=
        s.campaigns ++
          [{ id := nextCampaignId s, name := name, platform := platform,
             total_budget := total_budget, rate_per_100k := rate_per_100k,
             rate_per_1m := rate_per_1m, max_earn_per_creator := max_earn_per_creator,
             max_earn_per_post := max_earn_per_post, status := CampaignStatus.live,
             remaining_budget := total_budget }] }

/-- `end_campaign` (src/services/campaign_service.py lines 58-78): refuses
a missing or non-live campaign, else sets `status = 'ended'` and forces
`tracking = FALSE` on every submission of the campaign. -/
def end_campaign (s : DBState) (name : String) : DBState :=
  match findByKey Campaign.name name s.campaigns with
  | none => s
  | some c =>
    if c.status = CampaignStatus.live then
      let s1 : DBState :=
        { s with campaigns :=
            (updateByKey Campaign.id c.id
              (fun x => { x with status := CampaignStatus.ended }) s.campaigns) }
      { s1 with submissions :=
          (updateByKey Submission.campaign_id c.id
            (fun x => { x with tracking := false }) s1.submissions) }
    else s

/-- `create_payout` (src/services/database_service.py lines 540-559):
inserts a `'paid'` payout row, then `UPDATE users SET paid_earnings =
paid_earnings + ?, pending_earnings = pending_earnings - ?`. -/
def create_payout (s : DBState) (uid : String) (cid : Nat) (amount : ℚ)
    (tx staff : String) : DBState :=
  let s1 : DBState :=
    { s with payouts :=
        s.payouts ++
          [{ discord_id := uid, campaign_id := cid, amount := amount, status := "paid",
             usdt_tx_hash := tx, paid_by := staff }] }
  { s1 with users :=
      (updateByKey User.discord_id uid
        (fun u =>
          { u with
            paid_earnings := u.paid_earnings + amount
            pending_earnings := u.pending_earnings - amount })
        s1.users) }

/-- The store-mutating operations of the program, as invoked from the
command and event handlers (src/commands/, src/events/,
src/views/) and the background tick.  `opStopTracking` is
`update_submission_tracking(id, False)`; every call site of that service
method passes `False`. -/
inductive Op where
  | opRegister (validate : String → String → Bool)
      (normalize : String → String → Option String) (uid uname platform url : String)
  | opCreateUser (uid uname : String)
  | opUpdateWallet (uid w : String)
  | opApproveProfile (pid : Nat) (staff : String)
  | opRejectProfile (pid : Nat) (reason : String)
  | opBanProfile (platform url nid reason staff : String)
  | opRemoveBan (nid : String)
  | opCreateCampaign (name platform : String)
      (total_budget rate_per_100k rate_per_1m max_earn_per_creator max_earn_per_post : ℚ)
  | opEndCampaign (name : String)
  | opCreateSubmission (uid : String) (cid spid : Nat) (video_url nvid platform : String)
      (starting_views : Int)
  | opApproveSubmission (sid : Nat) (staff : String)
  | opRejectSubmission (sid : Nat)
  | opStopTracking (sid : Nat)
  | opCreatePayout (uid : String) (cid : Nat) (amount : ℚ) (tx staff : String)
  | opTick (fetch : String → String → Option Int)

/-- Effect of one operation on the store.  A failed `register` leaves the
store unchanged (its checks precede its inserts). -/
def applyOp (s : DBState) : Op → DBState
  | Op.opRegister validate normalize uid uname platform url =>
    match register validate normalize s uid uname platform url with
    | Except.ok (s', _) => s'
    | Except.error _ => s
  | Op.opCreateUser uid uname => create_user_if_not_exists s uid uname
  | Op.opUpdateWallet uid w => update_user_wallet s uid w
  | Op.opApproveProfile pid staff => approve_profile s pid staff
  | Op.opRejectProfile pid reason => reject_profile s pid reason
  | Op.opBanProfile platform url nid reason staff => ban_profile s platform url nid reason staff
  | Op.opRemoveBan nid => remove_ban s nid
  | Op.opCreateCampaign name platform tb r1 r2 mec mep =>
    create_campaign s name platform tb r1 r2 mec mep
  | Op.opEndCampaign name => end_campaign s name
  | Op.opCreateSubmission uid cid spid vu nvid platform sv =>
    (create_submission s uid cid spid vu nvid platform sv).1
  | Op.opApproveSubmission sid staff => approve_submission s sid staff
  | Op.opRejectSubmission sid => reject_submission s sid
  | Op.opStopTracking sid => update_submission_tracking s sid false
  | Op.opCreatePayout uid cid amount tx staff => create_payout s uid cid amount tx staff
  | Op.opTick fetch => track_views fetch s

/-- The method names defined in the body of class `DatabaseService`
(src/services/database_service.py lines 14-590), transcribed in source
order.  Python resolves `self.db_service.<name>` against this class body
(the class has no base with store methods), raising `AttributeError` for
any name not in it. -/
def databaseServiceMethods : List String :=
  ["__init__", "get_current_ist_time", "initialize", "close",
   "create_user_if_not_exists", "get_user", "update_user_wallet", "get_user_stats",
   "get_user_profiles", "get_user_active_campaigns", "create_social_profile",
   "get_profile_by_id", "get_profile_by_url", "get_profile_by_normalized_id",
   "get_pending_profiles", "approve_profile", "reject_profile", "get_banned_profile",
   "get_ban_by_id", "get_banned_profiles", "ban_profile", "remove_ban",
   "get_campaign_by_name", "get_campaign_by_id", "create_submission",
   "get_submission_by_id", "get_submission_by_video_id", "get_pending_submissions",
   "approve_submission", "reject_submission", "update_submission_message_id",
   "get_pending_payouts", "create_payout", "log_action", "update_submission_tracking",
   "cleanup_old_logs", "cleanup_old_view_history"]

/-- `ViewTracker.track_views` (src/services/view_tracker.py lines 31-128):
the body's first store call is `self.db_service.get_tracking_submissions()`.
When that attribute is not defined on `DatabaseService` the call raises
`AttributeError` before any loop iteration runs, and the enclosing
`except` handler's only store write is
`log_action('TRACKING_ERROR', 'system', details=...)`. -/
def track_views_service (fetch : String → String → Option Int) (s : DBState) : DBState :=
  if "get_tracking_submissions" ∈ databaseServiceMethods then
    track_views fetch s
  else
    log_action s "TRACKING_ERROR" "system" none

/-- The earnings delta exactly as the specification words it
(spec 4.5(d)): `min(max((view_increase/100000)*rate_per_100k,
(view_increase/1000000)*rate_per_1m), max_earn_per_post -
submission.earnings)`.  Stated separately from the source's
`calculate_earnings` so the two can be compared. -/
def specEarningsDelta (view_increase : Int)
    (rate_per_100k rate_per_1m max_earn_per_post sub_earnings : ℚ) : ℚ :=
  min (max (((view_increase : ℚ) / 100000) * rate_per_100k)
        (((view_increase : ℚ) / 1000000) * rate_per_1m))
    (max_earn_per_post - sub_earnings)

/-- C2: for a working-set row that passes the budget stop-condition, whose
view fetch succeeds and whose view increase is positive, the earnings
delta the code computes is exactly
`min(max((view_increase/100000)*rate_per_100k,
(view_increase/1000000)*rate_per_1m), max_earn_per_post -
submission.earnings)`, and whenever that value is non-positive (in
particular when `submission.earnings` has reached the per-post cap) the
tick skips the submission with no state change at all. -/
theorem earnings_delta_spec (fetch : String → String → Option Int) (s : DBState)
    (row : TrackedRow) (cv : Int)
    (hb : ¬ row.remaining_budget ≤ 0)
    (hf : fetch row.sub.video_url row.sub.platform = some cv)
    (hv : ¬ cv - row.sub.current_views ≤ 0) :
    calculate_earnings (cv - row.sub.current_views) row.rate_per_100k row.rate_per_1m
        (row.max_earn_per_post - row.sub.earnings)
      = specEarningsDelta (cv - row.sub.current_views) row.rate_per_100k row.rate_per_1m
          row.max_earn_per_post row.sub.earnings
    ∧ (specEarningsDelta (cv - row.sub.current_views) row.rate_per_100k row.rate_per_1m
          row.max_earn_per_post row.sub.earnings ≤ 0 →
        processSubmission fetch s row = s) := by
  have heq : calculate_earnings (cv - row.sub.current_views) row.rate_per_100k
      row.rate_per_1m (row.max_earn_per_post - row.sub.earnings)
      = specEarningsDelta (cv - row.sub.current_views) row.rate_per_100k row.rate_per_1m
          row.max_earn_per_post row.sub.earnings := rfl
  refine ⟨heq, fun hle => ?_⟩
  unfold processSubmission
  rw [if_neg hb, hf]
  dsimp only
  rw [if_neg hv, if_pos (by rw [heq]; exact hle)]

/-- C2 witness: a concrete row whose submission already sits at the
per-post cap; the delta clamps to 0 and the tick leaves the store
untouched. -/
def c2Row : TrackedRow :=
  { sub := { id := 1, discord_id := "u1", campaign_id := 1, social_profile_id := 1,
             video_url := "v1", normalized_video_id := "n1", platform := "instagram",
             starting_views := 0, current_views := 0, earnings := 100,
             status := SubmissionStatus.approved, tracking := true },
    rate_per_100k := 1, rate_per_1m := 0, max_earn_per_post := 100,
    remaining_budget := 50 }

/-- Store for the C2 witness. -/
def c2State : DBState := { submissions := [c2Row.sub] }

theorem earnings_delta_spec_witness :
    calculate_earnings (800000 - c2Row.sub.current_views) c2Row.rate_per_100k
        c2Row.rate_per_1m (c2Row.max_earn_per_post - c2Row.sub.earnings)
      = specEarningsDelta (800000 - c2Row.sub.current_views) c2Row.rate_per_100k
          c2Row.rate_per_1m c2Row.max_earn_per_post c2Row.sub.earnings
    ∧ (specEarningsDelta (800000 - c2Row.sub.current_views) c2Row.rate_per_100k
          c2Row.rate_per_1m c2Row.max_earn_per_post c2Row.sub.earnings ≤ 0 →
        processSubmission (fun _ _ => some 800000) c2State c2Row = c2State) :=
  earnings_delta_spec (fun _ _ => some 800000) c2State c2Row 800000
    (by norm_num [c2Row]) rfl (by norm_num [c2Row])

/-- C10: the services-layer tick always takes the error path:
`get_tracking_submissions` is not among the methods defined on
`DatabaseService`, so the tick's first store call raises, the handler
appends only a TRACKING_ERROR activity-log row, and no submission,
campaign or user state changes — the successful accrual branch of
src/services/view_tracker.py is unreachable. -/
theorem service_tick_only_logs_error (fetch : String → String → Option Int) (s : DBState) :
    "get_tracking_submissions" ∉ databaseServiceMethods
    ∧ track_views_service fetch s = log_action s "TRACKING_ERROR" "system" none
    ∧ (track_views_service fetch s).submissions = s.submissions
    ∧ (track_views_service fetch s).campaigns = s.campaigns
    ∧ (track_views_service fetch s).users = s.users := by
  have hmem : "get_tracking_submissions" ∉ databaseServiceMethods := by decide
  have heq : track_views_service fetch s = log_action s "TRACKING_ERROR" "system" none := by
    unfold track_views_service
    rw [if_neg hmem]
  exact ⟨hmem, heq, by rw [heq]; rfl, by rw [heq]; rfl, by rw [heq]; rfl⟩

/-- Campaign for the C1 failing input: live, `total_budget` 1000,
`remaining_budget` 10 at the start of the tick. -/
def c1Campaign : Campaign :=
  { id := 1, name := "camp", platform := "instagram", total_budget := 1000,
    rate_per_100k := 1, rate_per_1m := 0, max_earn_per_creator := 1000,
    max_earn_per_post := 100, status := CampaignStatus.live, remaining_budget := 10 }

/-- Store for the C1 failing input: one campaign with remaining budget 10
and two tracked, approved submissions of that campaign, each of which will
earn 8 from the same 800000-view fetch. -/
def c1State : DBState :=
  { users := [{ discord_id := "u1", username := "u1" },
              { discord_id := "u2", username := "u2" }],
    social_profiles :=
      [{ id := 1, discord_id := "u1", platform := "instagram", profile_url := "pu1",
         normalized_id := "ig:a", status := ProfileStatus.approved },
       { id := 2, discord_id := "u2", platform := "instagram", profile_url := "pu2",
         normalized_id := "ig:b", status := ProfileStatus.approved }],
    campaigns := [c1Campaign],
    submissions :=
      [{ id := 1, discord_id := "u1", campaign_id := 1, social_profile_id := 1,
         video_url := "v1", normalized_video_id := "n1", platform := "instagram",
         starting_views := 0, current_views := 0, earnings := 0,
         status := SubmissionStatus.approved, tracking := true },
       { id := 2, discord_id := "u2", campaign_id := 1, social_profile_id := 2,
         video_url := "v2", normalized_video_id := "n2", platform := "instagram",
         starting_views := 0, current_views := 0, earnings := 0,
         status := SubmissionStatus.approved, tracking := true }] }

/-- The per-user money identity of the spec:
`total_earnings == paid_earnings + pending_earnings`. -/
def userBalanced (u : User) : Prop :=
  u.total_earnings = u.paid_earnings + u.pending_earnings

/-- The identity holds for every user row in the store. -/
def usersBalanced (s : DBState) : Prop :=
  ∀ u ∈ s.users, userBalanced u

theorem usersBalanced_updateByKey {k : String} {f : User → User} {l : List User}
    (h : ∀ u ∈ l, userBalanced u) (hf : ∀ u, userBalanced u → userBalanced (f u)) :
    ∀ u ∈ updateByKey User.discord_id k f l, userBalanced u := by
  intro u hu
  simp only [updateByKey, List.mem_map] at hu
  obtain ⟨x, hx, hxe⟩ := hu
  by_cases hxk : x.discord_id = k
  · rw [if_pos hxk] at hxe
    exact hxe ▸ hf x (h x hx)
  · rw [if_neg hxk] at hxe
    exact hxe ▸ h x hx

theorem usersBalanced_add_user_earnings (s : DBState) (uid : String) (e : ℚ)
    (h : usersBalanced s) : usersBalanced (add_user_earnings s uid e) := by
  intro u hu
  refine usersBalanced_updateByKey (fun v hv => h v hv) ?_ u hu
  intro v hv
  unfold userBalanced at hv ⊢
  dsimp only
  rw [hv]; ring

theorem usersBalanced_processSubmission (fetch : String → String → Option Int)
    (row : TrackedRow) {s : DBState} (h : usersBalanced s) :
    usersBalanced (processSubmission fetch s row) := by
  unfold processSubmission
  split
  · exact h
  · split
    · exact h
    · dsimp only
      split
      · exact h
      · split
        · exact h
        · split
          · exact h
          · unfold log_milestone
            split
            · exact fun u hu =>
                usersBalanced_add_user_earnings _ row.sub.discord_id _
                  (fun v hv => h v hv) u hu
            · exact fun u hu =>
                usersBalanced_add_user_earnings _ row.sub.discord_id _
                  (fun v hv => h v hv) u hu

theorem usersBalanced_track_views (fetch : String → String → Option Int) {s : DBState}
    (h : usersBalanced s) : usersBalanced (track_views fetch s) := by
  unfold track_views
  generalize getTrackingSubmissions s = rows
  induction rows generalizing s with
  | nil => exact h
  | cons r rs ih => exact ih (usersBalanced_processSubmission fetch r h)

theorem usersBalanced_create_user (uid uname : String) {s : DBState}
    (h : usersBalanced s) : usersBalanced (create_user_if_not_exists s uid uname) := by
  unfold create_user_if_not_exists
  split
  · exact h
  · intro u hu
    rcases List.mem_append.mp hu with hu1 | hu2
    · exact h u hu1
    · rcases List.mem_singleton.mp hu2 with rfl
      unfold userBalanced
      norm_num

theorem usersBalanced_register (validate : String → String → Bool)
    (normalize : String → String → Option String) (uid uname platform url : String)
    {s : DBState} (h : usersBalanced s) :
    usersBalanced (applyOp s (Op.opRegister validate normalize uid uname platform url)) := by
  simp only [applyOp]
  cases hreg : register validate normalize s uid uname platform url with
  | error e => exact h
  | ok r =>
    show usersBalanced r.1
    unfold register at hreg
    split at hreg
    · exact Except.noConfusion hreg
    · split at hreg
      · exact Except.noConfusion hreg
      · split at hreg
        · exact Except.noConfusion hreg
        · split at hreg
          · exact Except.noConfusion hreg
          · dsimp only at hreg
            injection hreg with hr
            subst hr
            exact fun u hu => usersBalanced_create_user uid uname h u hu

theorem usersBalanced_applyOp (op : Op) {s : DBState} (h : usersBalanced s) :
    usersBalanced (applyOp s op) := by
  cases op with
  | opRegister validate normalize uid uname platform url =>
    exact usersBalanced_register validate normalize uid uname platform url h
  | opCreateUser uid uname => exact usersBalanced_create_user uid uname h
  | opUpdateWallet uid w =>
    intro u hu
    refine usersBalanced_updateByKey (fun v hv => h v hv) ?_ u hu
    intro v hv
    exact hv
  | opApproveProfile pid staff => exact h
  | opRejectProfile pid reason => exact h
  | opBanProfile platform url nid reason staff =>
    show usersBalanced (ban_profile s platform url nid reason staff)
    unfold ban_profile
    split
    · exact h
    · exact h
  | opRemoveBan nid => exact h
  | opCreateCampaign name platform tb r1 r2 mec mep =>
    show usersBalanced (create_campaign s name platform tb r1 r2 mec mep)
    unfold create_campaign
    split
    · exact h
    · exact h
  | opEndCampaign name =>
    show usersBalanced (end_campaign s name)
    unfold end_campaign
    split
    · exact h
    · split
      · exact h
      · exact h
  | opCreateSubmission uid cid spid vu nvid platform sv => exact h
  | opApproveSubmission sid staff => exact h
  | opRejectSubmission sid => exact h
  | opStopTracking sid => exact h
  | opCreatePayout uid cid amount tx staff =>
    intro u hu
    refine usersBalanced_updateByKey (fun v hv => h v hv) ?_ u hu
    intro v hv
    unfold userBalanced at hv ⊢
    dsimp only
    rw [hv]; ring
  | opTick fetch => exact usersBalanced_track_views fetch h

/-- C5: for every user, `total_earnings == paid_earnings +
pending_earnings` holds after every sequence of store operations, given
it holds initially: user creation starts at 0 = 0 + 0, the accrual tick
adds the same delta to `total_earnings` and `pending_earnings`, and
`create_payout` moves the payout amount from pending to paid leaving
`total_earnings` unchanged. -/
theorem users_balance_invariant (ops : List Op) (s : DBState) (h : usersBalanced s) :
    usersBalanced (ops.foldl applyOp s) := by
  induction ops generalizing s with
  | nil => exact h
  | cons op ops ih => exact ih _ (usersBalanced_applyOp op h)

/-- C5 witness: create a user, run an accrual tick over the C1 store, then
pay out 5; the identity holds in the final store. -/
theorem users_balance_invariant_witness :
    usersBalanced
      ([Op.opCreateUser "u1" "u1", Op.opCreateUser "u2" "u2",
        Op.opTick (fun _ _ => some 800000),
        Op.opCreatePayout "u1" 1 5 "tx" "staff"].foldl applyOp c1State) :=
  users_balance_invariant _ c1State
    (by
      intro u hu
      simp only [c1State, List.mem_cons, List.not_mem_nil, or_false] at hu
      rcases hu with rfl | rfl
      · unfold userBalanced; norm_num
      · unfold userBalanced; norm_num)

/-- Store for the C7 counterexample: one rejected, untracked submission. -/
def c7State : DBState :=
  { submissions :=
      [{ id := 1, discord_id := "u1", campaign_id := 1, social_profile_id := 1,
         video_url := "v1", normalized_video_id := "n1", platform := "instagram",
         starting_views := 0, current_views := 0, earnings := 0,
         status := SubmissionStatus.rejected, tracking := false }] }

/-- C7 counterexample: `approve_submission` runs an unconditional
`UPDATE ... WHERE id = ?` with no status guard (and its button handler in
src/events/interaction_handlers.py checks only existence), so applying it
to a rejected submission moves the status back to approved and starts
tracking — rejected is not terminal. -/
theorem approve_moves_rejected_to_approved :
    ((findByKey Submission.id 1 c7State.submissions).map Submission.status
        = some SubmissionStatus.rejected)
    ∧ ((findByKey Submission.id 1 (approve_submission c7State 1 "staff").submissions).map
        Submission.status = some SubmissionStatus.approved)
    ∧ ((findByKey Submission.id 1 (approve_submission c7State 1 "staff").submissions).map
        Submission.tracking = some true) :=
  ⟨rfl, rfl, rfl⟩

/-- Between two submission tables: every tracked submission of the second
already appears, with the same id, tracked in the first — i.e. the step
from the first to the second never turned tracking on. -/
def trackingOnlyDown (l0 l1 : List Submission) : Prop :=
  ∀ sub ∈ l1, sub.tracking = true →
    ∃ sub0, sub0 ∈ l0 ∧ sub0.id = sub.id ∧ sub0.tracking = true

theorem trackingOnlyDown_refl (l : List Submission) : trackingOnlyDown l l :=
  fun sub hs ht => ⟨sub, hs, rfl, ht⟩

theorem trackingOnlyDown_trans {l0 l1 l2 : List Submission}
    (h01 : trackingOnlyDown l0 l1) (h12 : trackingOnlyDown l1 l2) :
    trackingOnlyDown l0 l2 := by
  intro sub hs ht
  obtain ⟨s1, hs1, hid1, ht1⟩ := h12 sub hs ht
  obtain ⟨s0, hs0, hid0, ht0⟩ := h01 s1 hs1 ht1
  exact ⟨s0, hs0, hid0.trans hid1, ht0⟩

theorem trackingOnlyDown_map (l : List Submission) (g : Submission → Submission)
    (hg : ∀ x, (g x).id = x.id ∧ ((g x).tracking = true → x.tracking = true)) :
    trackingOnlyDown l (l.map g) := by
  intro sub hs ht
  obtain ⟨x, hx, hxe⟩ := List.mem_map.mp hs
  subst hxe
  exact ⟨x, hx, (hg x).1.symm, (hg x).2 ht⟩

theorem trackingOnlyDown_updateByKey {κ : Type} [DecidableEq κ] (key : Submission → κ)
    (k : κ) (f : Submission → Submission) (l : List Submission)
    (hf : ∀ x, (f x).id = x.id ∧ ((f x).tracking = true → x.tracking = true)) :
    trackingOnlyDown l (updateByKey key k f l) := by
  refine trackingOnlyDown_map l _ (fun x => ?_)
  by_cases h : key x = k
  · rw [if_pos h]
    exact hf x
  · rw [if_neg h]
    exact ⟨rfl, fun t => t⟩

theorem log_milestone_submissions (s : DBState) (uid : String) (cv : Int) :
    (log_milestone s uid cv).submissions = s.submissions := by
  unfold log_milestone log_action
  split <;> rfl

theorem trackingOnlyDown_processSubmission (fetch : String → String → Option Int)
    (s : DBState) (row : TrackedRow) :
    trackingOnlyDown s.submissions (processSubmission fetch s row).submissions := by
  unfold processSubmission
  split
  · exact trackingOnlyDown_updateByKey Submission.id row.sub.id _ s.submissions
      (fun x => ⟨rfl, fun t => nomatch t⟩)
  · split
    · exact trackingOnlyDown_refl _
    · dsimp only
      split
      · exact trackingOnlyDown_refl _
      · split
        · exact trackingOnlyDown_refl _
        · split
          · exact trackingOnlyDown_updateByKey Submission.id row.sub.id _ _
              (fun x => ⟨rfl, fun t => nomatch t⟩)
          · rw [trackingOnlyDown, log_milestone_submissions]
            exact trackingOnlyDown_updateByKey Submission.id row.sub.id _ s.submissions
              (fun x => ⟨rfl, fun t => by
                dsimp only at t
                split at t
                · exact nomatch t
                · exact t⟩)

theorem trackingOnlyDown_track_views (fetch : String → String → Option Int) (s : DBState) :
    trackingOnlyDown s.submissions (track_views fetch s).submissions := by
  unfold track_views
  generalize getTrackingSubmissions s = rows
  induction rows generalizing s with
  | nil => exact trackingOnlyDown_refl _
  | cons r rs ih =>
    exact trackingOnlyDown_trans (trackingOnlyDown_processSubmission fetch s r)
      (ih (processSubmission fetch s r))

theorem create_user_social_profiles (s : DBState) (uid uname : String) :
    (create_user_if_not_exists s uid uname).social_profiles = s.social_profiles := by
  unfold create_user_if_not_exists
  split <;> rfl

theorem create_user_submissions (s : DBState) (uid uname : String) :
    (create_user_if_not_exists s uid uname).submissions = s.submissions := by
  unfold create_user_if_not_exists
  split <;> rfl

theorem trackingOnlyDown_applyOp (s : DBState) (op : Op)
    (hop : ∀ sid staff, op ≠ Op.opApproveSubmission sid staff) :
    trackingOnlyDown s.submissions (applyOp s op).submissions := by
  cases op with
  | opRegister validate normalize uid uname platform url =>
    simp only [applyOp]
    cases hreg : register validate normalize s uid uname platform url with
    | error e => exact trackingOnlyDown_refl _
    | ok r =>
      show trackingOnlyDown s.submissions r.1.submissions
      unfold register at hreg
      split at hreg
      · exact Except.noConfusion hreg
      · split at hreg
        · exact Except.noConfusion hreg
        · split at hreg
          · exact Except.noConfusion hreg
          · split at hreg
            · exact Except.noConfusion hreg
            · dsimp only at hreg
              injection hreg with hr
              subst hr
              show trackingOnlyDown s.submissions
                (create_user_if_not_exists s uid uname).submissions
              rw [create_user_submissions]
              exact trackingOnlyDown_refl _
  | opCreateUser uid uname =>
    show trackingOnlyDown s.submissions (create_user_if_not_exists s uid uname).submissions
    rw [create_user_submissions]
    exact trackingOnlyDown_refl _
  | opUpdateWallet uid w => exact trackingOnlyDown_refl _
  | opApproveProfile pid staff => exact trackingOnlyDown_refl _
  | opRejectProfile pid reason => exact trackingOnlyDown_refl _
  | opBanProfile platform url nid reason staff =>
    show trackingOnlyDown s.submissions (ban_profile s platform url nid reason staff).submissions
    unfold ban_profile
    split
    · exact trackingOnlyDown_refl _
    · refine trackingOnlyDown_map s.submissions _ (fun x => ?_)
      split
      · exact ⟨rfl, fun t => nomatch t⟩
      · exact ⟨rfl, fun t => t⟩
  | opRemoveBan nid => exact trackingOnlyDown_refl _
  | opCreateCampaign name platform tb r1 r2 mec mep =>
    show trackingOnlyDown s.submissions
      (create_campaign s name platform tb r1 r2 mec mep).submissions
    unfold create_campaign
    split
    · exact trackingOnlyDown_refl _
    · exact trackingOnlyDown_refl _
  | opEndCampaign name =>
    show trackingOnlyDown s.submissions (end_campaign s name).submissions
    unfold end_campaign
    split
    · exact trackingOnlyDown_refl _
    · split
      · exact trackingOnlyDown_updateByKey Submission.campaign_id _ _ s.submissions
          (fun x => ⟨rfl, fun t => nomatch t⟩)
      · exact trackingOnlyDown_refl _
  | opCreateSubmission uid cid spid vu nvid platform sv =>
    intro sub hs ht
    rcases List.mem_append.mp hs with h1 | h2
    · exact ⟨sub, h1, rfl, ht⟩
    · rcases List.mem_singleton.mp h2 with rfl
      exact nomatch ht
  | opApproveSubmission sid staff => exact absurd rfl (hop sid staff)
  | opRejectSubmission sid =>
    exact trackingOnlyDown_updateByKey Submission.id sid _ s.submissions
      (fun x => ⟨rfl, fun t => t⟩)
  | opStopTracking sid =>
    exact trackingOnlyDown_updateByKey Submission.id sid _ s.submissions
      (fun x => ⟨rfl, fun t => nomatch t⟩)
  | opCreatePayout uid cid amount tx staff => exact trackingOnlyDown_refl _
  | opTick fetch => exact trackingOnlyDown_track_views fetch s

/-- C7 amended: `approve_submission` and `reject_submission` are
unconditional updates — approve always sets status approved and tracking
true (also from rejected) and reject always sets status rejected (also
from approved), so approved and rejected are not terminal; and across
every modeled store operation other than submission approve, tracking is
never turned on. -/
theorem submission_status_machine (s : DBState) (sid : Nat) (staff : String) (op : Op)
    (hop : ∀ i a, op ≠ Op.opApproveSubmission i a) :
    (findByKey Submission.id sid (approve_submission s sid staff).submissions
        = (findByKey Submission.id sid s.submissions).map
            (fun x =>
              { x with
                status := SubmissionStatus.approved
                tracking := true
                approved_by := some staff }))
    ∧ (findByKey Submission.id sid (reject_submission s sid).submissions
        = (findByKey Submission.id sid s.submissions).map
            (fun x => { x with status := SubmissionStatus.rejected }))
    ∧ trackingOnlyDown s.submissions (applyOp s op).submissions := by
  refine ⟨?_, ?_, trackingOnlyDown_applyOp s op hop⟩
  · exact findByKey_updateByKey_self Submission.id sid
      (fun x =>
        { x with
          status := SubmissionStatus.approved
          tracking := true
          approved_by := some staff })
      (fun x => rfl) s.submissions
  · exact findByKey_updateByKey_self Submission.id sid
      (fun x => { x with status := SubmissionStatus.rejected })
      (fun x => rfl) s.submissions

theorem submission_status_machine_witness :
    (findByKey Submission.id 1 (approve_submission c7State 1 "admin").submissions
        = (findByKey Submission.id 1 c7State.submissions).map
            (fun x =>
              { x with
                status := SubmissionStatus.approved
                tracking := true
                approved_by := some "admin" }))
    ∧ (findByKey Submission.id 1 (reject_submission c7State 1).submissions
        = (findByKey Submission.id 1 c7State.submissions).map
            (fun x => { x with status := SubmissionStatus.rejected }))
    ∧ trackingOnlyDown c7State.submissions
        (applyOp c7State (Op.opStopTracking 1)).submissions :=
  submission_status_machine c7State 1 "admin" (Op.opStopTracking 1)
    (fun _ _ h => nomatch h)

/-- The status half of the spec's blocklist invariant: every social
profile whose normalized id has a `banned_profiles` row has status
banned. -/
def bannedStatusInv (s : DBState) : Prop :=
  ∀ b ∈ s.banned_profiles, ∀ p ∈ s.social_profiles,
    p.normalized_id = b.normalized_id → p.status = ProfileStatus.banned

/-- Store for the C8 counterexample: profile 1 is banned and its
normalized id sits in the ban list. -/
def c8State : DBState :=
  { social_profiles :=
      [{ id := 1, discord_id := "u1", platform := "instagram", profile_url := "pu",
         normalized_id := "ig:x", status := ProfileStatus.banned }],
    banned_profiles :=
      [{ platform := "instagram", profile_url := "pu", normalized_id := "ig:x",
         reason := "spam", banned_by := "staff" }] }

/-- C8 counterexample: `approve_profile` consults no ban list — applied
to the banned profile it sets its status to approved while the
`banned_profiles` row remains, so the blocklist invariant is not
preserved by every operation. -/
theorem approve_profile_breaks_ban_invariant :
    bannedStatusInv c8State ∧ ¬ bannedStatusInv (approve_profile c8State 1 "staff") :=
  ⟨by unfold bannedStatusInv; decide, by unfold bannedStatusInv; decide⟩

/-- C8 amended: the register half of the invariant holds — a normalized
id with a `banned_profiles` row can never be registered — and
`ban_profile`, invoked for a normalized id that is not yet banned (when
it already is, its INSERT violates `UNIQUE(normalized_id)`, raises, and
changes nothing), forces every profile carrying that normalized id to
status banned; but `approve_profile`/`reject_profile` are unguarded, so
the status half is not preserved by every operation (counterexample
above). -/
theorem ban_blocklist_enforcement (validate : String → String → Bool)
    (normalize : String → String → Option String) (s : DBState)
    (uid uname platform url nid : String) (b : BannedProfile)
    (hn : normalize platform url = some nid)
    (hb : get_banned_profile s nid = some b) :
    (∀ r, register validate normalize s uid uname platform url ≠ Except.ok r)
    ∧ (∀ s2 : DBState, ∀ platform2 url2 reason staff,
        get_banned_profile s2 nid = none →
        ∀ p ∈ (ban_profile s2 platform2 url2 nid reason staff).social_profiles,
          p.normalized_id = nid → p.status = ProfileStatus.banned) := by
  constructor
  · intro r hr
    unfold register at hr
    split at hr
    · exact Except.noConfusion hr
    · rw [hn] at hr
      dsimp only at hr
      rw [hb] at hr
      exact Except.noConfusion hr
  · intro s2 platform2 url2 reason staff hbn2 p hp hpn
    unfold ban_profile at hp
    rw [hbn2] at hp
    dsimp only at hp
    have hp' : p ∈ updateByKey SocialProfile.normalized_id nid
        (fun q => { q with status := ProfileStatus.banned }) s2.social_profiles := hp
    simp only [updateByKey, List.mem_map] at hp'
    obtain ⟨x, hx, hxe⟩ := hp'
    by_cases hxn : x.normalized_id = nid
    · rw [if_pos hxn] at hxe
      rw [← hxe]
    · rw [if_neg hxn] at hxe
      subst hxe
      exact absurd hpn hxn

theorem ban_blocklist_enforcement_witness :
    (∀ r, register (fun _ _ => true) (fun _ _ => some "ig:x") c8State "u2" "u2"
        "instagram" "pu" ≠ Except.ok r)
    ∧ (∀ s2 : DBState, ∀ platform2 url2 reason staff,
        get_banned_profile s2 "ig:x" = none →
        ∀ p ∈ (ban_profile s2 platform2 url2 "ig:x" reason staff).social_profiles,
          p.normalized_id = "ig:x" → p.status = ProfileStatus.banned) :=
  ban_blocklist_enforcement (fun _ _ => true) (fun _ _ => some "ig:x") c8State
    "u2" "u2" "instagram" "pu" "ig:x"
    { platform := "instagram", profile_url := "pu", normalized_id := "ig:x",
      reason := "spam", banned_by := "staff" }
    rfl rfl

theorem foldl_max_start_le {α : Type} (g : α → Nat) (l : List α) :
    ∀ a : Nat, a ≤ l.foldl (fun m y => max m (g y)) a := by
  induction l with
  | nil =>
    intro a
    exact le_refl a
  | cons b l ih =>
    intro a
    exact le_trans (le_max_left a (g b)) (ih (max a (g b)))

theorem mem_le_foldl_max {α : Type} (g : α → Nat) (l : List α) :
    ∀ a : Nat, ∀ x ∈ l, g x ≤ l.foldl (fun m y => max m (g y)) a := by
  induction l with
  | nil =>
    intro a x hx
    exact absurd hx (List.not_mem_nil x)
  | cons b l ih =>
    intro a x hx
    cases hx with
    | head => exact le_trans (le_max_right a (g b)) (foldl_max_start_le g l (max a (g b)))
    | tail _ hx2 => exact ih (max a (g b)) x hx2

theorem find?_append_of_none {α : Type} (p : α → Bool) (l1 l2 : List α)
    (h : ∀ x ∈ l1, p x = false) : (l1 ++ l2).find? p = l2.find? p := by
  induction l1 with
  | nil => rfl
  | cons a l ih =>
    rw [List.cons_append,
      List.find?_cons_of_neg _ (by simp [h a (List.mem_cons_self a l)])]
    exact ih (fun x hx => h x (List.mem_cons_of_mem a hx))

theorem find_new_profile (s2 : DBState) (uid platform url nid : String) :
    (findByKey SocialProfile.id (nextProfileId s2)
      (create_social_profile s2 uid platform url nid).1.social_profiles).map
        SocialProfile.status = some ProfileStatus.pending := by
  show (List.find? (fun x => decide (x.id = nextProfileId s2))
      (s2.social_profiles ++
        [{ id := nextProfileId s2, discord_id := uid, platform := platform,
           profile_url := url, normalized_id := nid, status := ProfileStatus.pending,
           rejection_reason := none, verified_by := none }])).map
        SocialProfile.status = some ProfileStatus.pending
  have hnone : ∀ x ∈ s2.social_profiles,
      (fun x => decide (x.id = nextProfileId s2)) x = false := by
    intro x hx
    have hlt : x.id < nextProfileId s2 :=
      Nat.lt_succ_of_le (mem_le_foldl_max SocialProfile.id s2.social_profiles 0 x hx)
    exact decide_eq_false (Nat.ne_of_lt hlt)
  rw [find?_append_of_none _ _ _ hnone, List.find?_cons_of_pos _ (by simp)]
  rfl

theorem create_user_has_user (s : DBState) (uid uname : String) :
    ∃ u ∈ (create_user_if_not_exists s uid uname).users, u.discord_id = uid := by
  unfold create_user_if_not_exists
  split
  next u heq =>
    unfold findByKey at heq
    refine ⟨u, List.mem_of_find?_eq_some heq, ?_⟩
    have hp := List.find?_some heq
    simp only [decide_eq_true_eq] at hp
    exact hp
  next heq =>
    exact ⟨{ discord_id := uid, username := uname },
      List.mem_append.mpr (Or.inr (List.mem_singleton.mpr rfl)), rfl⟩

/-- C9: with a valid URL that normalizes to `nid`, register fails with
`AlreadyBanned` carrying the stored ban reason whenever `nid` has a ban
row; fails with `AlreadyRegistered` whenever `nid` already belongs to an
existing profile; otherwise succeeds, creating the user row if absent and
inserting a profile with status pending; and for a banned `nid` no
validator whatsoever lets register complete successfully. -/
theorem register_spec (validate : String → String → Bool)
    (normalize : String → String → Option String) (s : DBState)
    (uid uname platform url nid : String)
    (hval : validate platform url = true)
    (hn : normalize platform url = some nid) :
    (∀ b, get_banned_profile s nid = some b →
        register validate normalize s uid uname platform url
          = Except.error (RegisterError.alreadyBanned b.reason))
    ∧ (get_banned_profile s nid = none →
        ∀ p, get_profile_by_normalized_id s nid = some p →
          register validate normalize s uid uname platform url
            = Except.error RegisterError.alreadyRegistered)
    ∧ (get_banned_profile s nid = none → get_profile_by_normalized_id s nid = none →
        ∃ s2 pid, register validate normalize s uid uname platform url
            = Except.ok (s2, pid)
          ∧ (findByKey SocialProfile.id pid s2.social_profiles).map SocialProfile.status
              = some ProfileStatus.pending
          ∧ ∃ u ∈ s2.users, u.discord_id = uid)
    ∧ (∀ validate2 b, get_banned_profile s nid = some b →
        ∀ r, register validate2 normalize s uid uname platform url ≠ Except.ok r) := by
  have hvneg : ¬ (validate platform url = false) :=
    fun hf => Bool.noConfusion (hval.symm.trans hf)
  refine ⟨?_, ?_, ?_, ?_⟩
  · intro b hb
    unfold register
    rw [if_neg hvneg, hn]
    dsimp only
    rw [hb]
  · intro hbn p hp
    unfold register
    rw [if_neg hvneg, hn]
    dsimp only
    rw [hbn]
    dsimp only
    rw [hp]
  · intro hbn hpn
    refine ⟨(create_social_profile (create_user_if_not_exists s uid uname)
          uid platform url nid).1,
        nextProfileId (create_user_if_not_exists s uid uname), ?_, ?_, ?_⟩
    · unfold register
      rw [if_neg hvneg, hn]
      dsimp only
      rw [hbn]
      dsimp only
      rw [hpn]
      rfl
    · exact find_new_profile (create_user_if_not_exists s uid uname) uid platform url nid
    · exact create_user_has_user s uid uname
  · intro validate2 b hb r hr
    unfold register at hr
    split at hr
    · exact Except.noConfusion hr
    · rw [hn] at hr
      dsimp only at hr
      rw [hb] at hr
      exact Except.noConfusion hr

theorem register_spec_witness :
    (∀ b, get_banned_profile ({} : DBState) "ig:w" = some b →
        register (fun _ _ => true) (fun _ _ => some "ig:w") ({} : DBState) "u9" "u9"
            "instagram" "purl"
          = Except.error (RegisterError.alreadyBanned b.reason))
    ∧ (get_banned_profile ({} : DBState) "ig:w" = none →
        ∀ p, get_profile_by_normalized_id ({} : DBState) "ig:w" = some p →
          register (fun _ _ => true) (fun _ _ => some "ig:w") ({} : DBState) "u9" "u9"
              "instagram" "purl"
            = Except.error RegisterError.alreadyRegistered)
    ∧ (get_banned_profile ({} : DBState) "ig:w" = none →
        get_profile_by_normalized_id ({} : DBState) "ig:w" = none →
        ∃ s2 pid, register (fun _ _ => true) (fun _ _ => some "ig:w") ({} : DBState)
              "u9" "u9" "instagram" "purl"
            = Except.ok (s2, pid)
          ∧ (findByKey SocialProfile.id pid s2.social_profiles).map SocialProfile.status
              = some ProfileStatus.pending
          ∧ ∃ u ∈ s2.users, u.discord_id = "u9")
    ∧ (∀ validate2 b, get_banned_profile ({} : DBState) "ig:w" = some b →
        ∀ r, register validate2 (fun _ _ => some "ig:w") ({} : DBState) "u9" "u9"
            "instagram" "purl" ≠ Except.ok r) :=
  register_spec (fun _ _ => true) (fun _ _ => some "ig:w") ({} : DBState) "u9" "u9"
    "instagram" "purl" "ig:w" rfl rfl

end Clipping
